import Mathlib

/-!
# Verification of the TolopaniSign capture/session state machine

Shallow embedding of the sign-language-translator front end: the gateway
wrapper (`translateImageToText` / `summarizeText` result handling from the
service module) and the session state machine of the application component
(`startTranslationSession`, `stopTranslationSession`, the capture tick body,
and `handleSummarize`).  Asynchronous gateway and camera outcomes are passed
in as explicit parameters; React state setters become record updates applied
in program order.
-/

namespace TolopaniSign

/-! ## Gateway service wrapper

The service wrapper computes `(response.text ?? '').trim()` on success.
JavaScript `trim` removes leading and trailing whitespace; we model it
on the character list of the string. -/

/-- JavaScript `String.prototype.trim`: drop leading and trailing
whitespace characters. -/
def jsTrim (s : String) : String :=
  String.mk ((s.data.dropWhile Char.isWhitespace).rdropWhile Char.isWhitespace)

/-- Success path of the image-translation service call:
`const text = response.text ?? ''; return text.trim();` where `responseText`
models the optional `response.text`. -/
def translateImageToText (responseText : Option String) : String :=
  jsTrim (responseText.getD "")

/-- Success path of the summarization service call:
`const text = response.text ?? ''; return text.trim();`. -/
def summarizeText (responseText : Option String) : String :=
  jsTrim (responseText.getD "")

/-! ## Session state -/

/-- The `Status` union type of the application component. -/
inductive Status
  | IDLE
  | STARTING
  | TRANSLATING
  | CAPTURING
  | STOPPING
  | ERROR
  deriving DecidableEq, Repr

/-- The React state of the component plus instrumentation for the camera
mock: `cameraStream` models `videoRef.current.srcObject`, `captureInterval`
models the registered interval handle carrying its period in ms,
`releaseCount` counts stream-release events (`track.stop()` sweeps), and
`cameraRequests` counts `getUserMedia` invocations. -/
structure AppState where
  isTranslating : Bool
  translatedPhrases : List String
  summary : Option String
  isSummarizing : Bool
  status : Status
  error : Option String
  captureInterval : Option Nat
  cameraStream : Option Unit
  releaseCount : Nat
  cameraRequests : Nat
  deriving DecidableEq, Repr

/-- The initial component state. -/
def initialState : AppState :=
  { isTranslating := false
    translatedPhrases := []
    summary := none
    isSummarizing := false
    status := Status.IDLE
    error := none
    captureInterval := none
    cameraStream := none
    releaseCount := 0
    cameraRequests := 0 }

/-- Error message shown when the API key is missing. -/
def configErrorMessage : String :=
  "Kunci API Gemini tidak ditemukan. Harap atur variabel lingkungan API_KEY."

/-- Error message when camera permission is denied. -/
def permissionDeniedMessage : String :=
  "Izin kamera ditolak. Harap izinkan akses kamera di pengaturan browser Anda."

/-- Generic camera access error message. -/
def cameraErrorMessage : String := "Gagal mengakses kamera."

/-- Error message recorded when a tick translation call fails. -/
def translationFailureMessage : String := "Gagal menerjemahkan. Silakan coba lagi."

/-- Error message recorded when the summarize call fails. -/
def summarizationFailureMessage : String := "Gagal membuat kesimpulan. Silakan coba lagi."

/-! ## Phrase accumulation (tick success path) -/

/-- The functional updater passed to `setTranslatedPhrases`:
append `result` unless the sequence is non-empty and its last entry equals
`result` case-insensitively. -/
def appendPhrase (prev : List String) (result : String) : List String :=
  if prev.length = 0 ∨ (prev.getLastD "").toLower ≠ result.toLower then
    prev ++ [result]
  else
    prev

/-- The tick success branch: the setter runs only under `if (result)`,
i.e. only when the (trimmed) result string is non-empty. -/
def recordResult (prev : List String) (result : String) : List String :=
  if result = "" then prev else appendPhrase prev result

/-- The phrase sequence produced by a session whose successive tick
results are `results` (each being the string delivered by a successful
gateway call). -/
def phrasesAfter (results : List String) : List String :=
  results.foldl recordResult []

/-- Two strings are case-insensitively distinct. -/
def lowerNe (a b : String) : Prop := a.toLower ≠ b.toLower

instance : DecidableRel lowerNe := fun a b =>
  inferInstanceAs (Decidable ¬(a.toLower = b.toLower))

/-! ## Session operations -/

/-- `stopTranslationSession`: set `STOPPING`, clear the interval if one is
registered, stop and detach the stream if one is held (one release event),
then reset `isTranslating` and set `IDLE`. -/
def stopTranslationSession (s : AppState) : AppState :=
  let s1 : AppState := { s with status := Status.STOPPING }
  let s2 : AppState :=
    match s1.captureInterval with
    | some _ => { s1 with captureInterval := none }
    | none => s1
  let s3 : AppState :=
    match s2.cameraStream with
    | some _ => { s2 with cameraStream := none, releaseCount := s2.releaseCount + 1 }
    | none => s2
  { s3 with isTranslating := false, status := Status.IDLE }

/-- Outcome of the `getUserMedia` camera acquisition. -/
inductive CameraOutcome
  | granted
  | notAllowed
  | otherFailure
  deriving DecidableEq, Repr

/-- `startTranslationSession`: if no API key is configured, set the
configuration error and `ERROR` and return at once (nothing is cleared and
the camera is never requested).  Otherwise clear error, phrases and summary,
set `isTranslating` and `STARTING`, then request the camera; on grant bind
the stream and arm the 6000 ms capture interval; on failure set a classified
message, `ERROR`, and drop `isTranslating`. -/
def startTranslationSession (hasApiKey : Bool) (cam : CameraOutcome)
    (s : AppState) : AppState :=
  if !hasApiKey then
    { s with error := some configErrorMessage, status := Status.ERROR }
  else
    let s1 : AppState :=
      { s with error := none
               translatedPhrases := []
               summary := none
               isTranslating := true
               status := Status.STARTING
               cameraRequests := s.cameraRequests + 1 }
    match cam with
    | CameraOutcome.granted =>
        { s1 with cameraStream := some (), captureInterval := some 6000 }
    | CameraOutcome.notAllowed =>
        { s1 with error := some permissionDeniedMessage
                  status := Status.ERROR
                  isTranslating := false }
    | CameraOutcome.otherFailure =>
        { s1 with error := some cameraErrorMessage
                  status := Status.ERROR
                  isTranslating := false }

/-- Outcome of one tick's gateway translation call: success carries the
optional `response.text`, failure models a thrown service error. -/
inductive TickOutcome
  | success (raw : Option String)
  | failure
  deriving DecidableEq, Repr

/-- Body of one capture-interval callback (with video, canvas and drawing
context present): set `TRANSLATING`; on success record the trimmed result;
on failure set the translation error and call `stopTranslationSession`; in
either case the `finally` clause then sets `CAPTURING`. -/
def performTick (outcome : TickOutcome) (s : AppState) : AppState :=
  let s1 : AppState := { s with status := Status.TRANSLATING }
  match outcome with
  | TickOutcome.success raw =>
      let result := translateImageToText raw
      let s2 : AppState :=
        { s1 with translatedPhrases := recordResult s1.translatedPhrases result }
      { s2 with status := Status.CAPTURING }
  | TickOutcome.failure =>
      let s2 : AppState := { s1 with error := some translationFailureMessage }
      let s3 : AppState := stopTranslationSession s2
      { s3 with status := Status.CAPTURING }

/-- Outcome of the summarize gateway call. -/
inductive SummarizeOutcome
  | success (raw : Option String)
  | failure
  deriving DecidableEq, Repr

/-- `handleSummarize`: return at once when fewer than two phrases are
stored; otherwise set `isSummarizing`, clear error and summary, await the
gateway; on success store the result, on failure set the summarization
error; finally drop `isSummarizing`.  The second component records whether
the gateway was called. -/
def handleSummarize (outcome : SummarizeOutcome) (s : AppState) :
    AppState × Bool :=
  if s.translatedPhrases.length < 2 then (s, false)
  else
    let s1 : AppState :=
      { s with isSummarizing := true, error := none, summary := none }
    match outcome with
    | SummarizeOutcome.success raw =>
        ({ s1 with summary := some (summarizeText raw), isSummarizing := false }, true)
    | SummarizeOutcome.failure =>
        ({ s1 with error := some summarizationFailureMessage, isSummarizing := false }, true)

/-! ## Sample states for concrete checks -/

/-- A state with an active capture session: stream bound, ticker armed. -/
def activeState : AppState :=
  { isTranslating := true
    translatedPhrases := ["Halo"]
    summary := none
    isSummarizing := false
    status := Status.CAPTURING
    error := none
    captureInterval := some 6000
    cameraStream := some ()
    releaseCount := 0
    cameraRequests := 1 }

/-- A stopped state holding two phrases and a previously stored summary. -/
def sampleState : AppState :=
  { isTranslating := false
    translatedPhrases := ["Halo", "Selamat pagi"]
    summary := some "Kalimat lama"
    isSummarizing := false
    status := Status.IDLE
    error := none
    captureInterval := none
    cameraStream := none
    releaseCount := 1
    cameraRequests := 1 }

/-- A state in `ERROR` still holding phrases, a summary and an error. -/
def errorState : AppState :=
  { isTranslating := false
    translatedPhrases := ["Halo", "Selamat pagi"]
    summary := some "Kalimat lama"
    isSummarizing := false
    status := Status.ERROR
    error := some translationFailureMessage
    captureInterval := none
    cameraStream := none
    releaseCount := 1
    cameraRequests := 1 }

/-! ## Trim lemmas -/

/-- A left-then-right trimmed character list has no leading whitespace. -/
theorem trimmed_dropWhile (l : List Char) :
    ((l.dropWhile Char.isWhitespace).rdropWhile Char.isWhitespace).dropWhile Char.isWhitespace
      = (l.dropWhile Char.isWhitespace).rdropWhile Char.isWhitespace := by
  cases h : (l.dropWhile Char.isWhitespace).rdropWhile Char.isWhitespace with
  | nil => rfl
  | cons a t =>
    have hpre := List.rdropWhile_prefix Char.isWhitespace (l.dropWhile Char.isWhitespace)
    rw [h] at hpre
    obtain ⟨u, hu⟩ := hpre
    have hq : (l.dropWhile Char.isWhitespace).head? = some a := by
      rw [← hu]; rfl
    have hwa := List.head?_dropWhile_not Char.isWhitespace l
    rw [hq] at hwa
    simp only [List.dropWhile_cons]
    rw [if_neg (by simp [hwa])]

/-- JavaScript trim is idempotent. -/
theorem jsTrim_idem (s : String) : jsTrim (jsTrim s) = jsTrim s := by
  have hd : (jsTrim s).data
      = (s.data.dropWhile Char.isWhitespace).rdropWhile Char.isWhitespace := rfl
  show String.mk _ = String.mk _
  rw [hd, trimmed_dropWhile]
  exact congrArg String.mk (List.rdropWhile_idempotent _ _)

/-- Trimming an all-whitespace string yields the empty string. -/
theorem jsTrim_whitespace (s : String)
    (h : ∀ c ∈ s.data, c.isWhitespace = true) : jsTrim s = "" := by
  unfold jsTrim
  rw [List.dropWhile_eq_nil_iff.mpr h]
  rfl

/-! ## Destutter and fold lemmas for the phrase sequence -/

/-- `destutter'` always starts with its seed element. -/
theorem destutter'_head_tail {α : Type} (R : α → α → Prop) [DecidableRel R] :
    ∀ (l : List α) (a : α), l.destutter' R a = a :: (l.destutter' R a).tail := by
  intro l
  induction l with
  | nil => intro a; rfl
  | cons b t ih =>
    intro a
    by_cases h : R a b
    · rw [List.destutter'_cons_pos _ h]
      rfl
    · rw [List.destutter'_cons_neg _ h]
      exact ih a

/-- Folding the tick recorder over results, starting from an accumulator
whose last entry is `a`, appends exactly the destuttered non-empty results
relative to `a`. -/
theorem foldl_recordResult_eq (t : List String) :
    ∀ (acc : List String) (a : String), acc.getLast? = some a →
    t.foldl recordResult acc =
      acc ++ ((t.filter (fun r => r ≠ "")).destutter' lowerNe a).tail := by
  induction t with
  | nil => intro acc a _; simp
  | cons r t ih =>
    intro acc a ha
    rw [List.foldl_cons]
    by_cases hr : r = ""
    · subst hr
      rw [show recordResult acc "" = acc from by simp [recordResult]]
      rw [show ((""::t).filter (fun x => x ≠ "")) = t.filter (fun x => x ≠ "") from by simp]
      exact ih acc a ha
    · have hne : acc ≠ [] := by
        intro hacc; rw [hacc] at ha; simp at ha
      have hlast : acc.getLastD "" = a := by
        rw [List.getLastD_eq_getLast?, ha]; rfl
      have hfil : ((r :: t).filter (fun x => x ≠ "")) = r :: t.filter (fun x => x ≠ "") := by
        simp [hr]
      by_cases hlow : a.toLower = r.toLower
      · have hrec : recordResult acc r = acc := by
          unfold recordResult appendPhrase
          rw [if_neg hr, if_neg]
          push_neg
          refine ⟨?_, ?_⟩
          · simpa [List.length_eq_zero] using hne
          · rw [hlast]; exact hlow
        rw [hrec, hfil, List.destutter'_cons_neg]
        · exact ih acc a ha
        · intro hcon; exact hcon hlow
      · have hR : lowerNe a r := hlow
        have hrec : recordResult acc r = acc ++ [r] := by
          unfold recordResult appendPhrase
          rw [if_neg hr, if_pos]
          right
          rw [hlast]; exact hlow
        rw [hrec, ih (acc ++ [r]) r (List.getLast?_concat acc), hfil,
          List.destutter'_cons_pos _ hR]
        rw [List.append_assoc]
        congr 1
        simp only [List.tail_cons]
        conv_rhs => rw [destutter'_head_tail lowerNe (t.filter (fun x => x ≠ "")) r]
        rfl

/-- The accumulated phrase sequence is the non-empty tick results with
consecutive case-insensitive duplicates collapsed. -/
theorem phrasesAfter_eq_destutter (l : List String) :
    phrasesAfter l = (l.filter (fun r => r ≠ "")).destutter lowerNe := by
  unfold phrasesAfter
  induction l with
  | nil => rfl
  | cons r t ih =>
    rw [List.foldl_cons]
    by_cases hr : r = ""
    · subst hr
      rw [show recordResult [] "" = ([] : List String) from by simp [recordResult]]
      rw [show ((""::t).filter (fun x => x ≠ "")) = t.filter (fun x => x ≠ "") from by simp]
      exact ih
    · have hrec : recordResult [] r = [r] := by
        simp [recordResult, appendPhrase, hr]
      rw [hrec, foldl_recordResult_eq t [r] r (by simp)]
      rw [show ((r::t).filter (fun x => x ≠ "")) = r :: t.filter (fun x => x ≠ "") from by
        simp [hr]]
      rw [List.destutter_cons']
      conv_rhs => rw [destutter'_head_tail lowerNe (t.filter (fun x => x ≠ "")) r]
      rfl

/-- One successful tick updates the phrase sequence by `recordResult`. -/
theorem performTick_success_phrases (raw : Option String) (s : AppState) :
    (performTick (TickOutcome.success raw) s).translatedPhrases
      = recordResult s.translatedPhrases (translateImageToText raw) := rfl

/-- A run of successful ticks folds `recordResult` over the trimmed
gateway results. -/
theorem foldl_performTick_success (raws : List (Option String)) :
    ∀ s : AppState,
    (raws.foldl (fun st raw => performTick (TickOutcome.success raw) st) s).translatedPhrases
      = (raws.map translateImageToText).foldl recordResult s.translatedPhrases := by
  induction raws with
  | nil => intro s; rfl
  | cons raw t ih =>
    intro s
    rw [List.foldl_cons, List.map_cons, List.foldl_cons, ih, performTick_success_phrases]

/-- `stop()` never touches the phrase sequence or the summary, ends in
`IDLE`, and drops the activity flag. -/
theorem stop_fields (s : AppState) :
    (stopTranslationSession s).translatedPhrases = s.translatedPhrases ∧
    (stopTranslationSession s).summary = s.summary ∧
    (stopTranslationSession s).status = Status.IDLE ∧
    (stopTranslationSession s).isTranslating = false := by
  cases s with
  | mk a b c d e f g h i j => cases g <;> cases h <;> simp [stopTranslationSession]

/-- Every element of the folded phrase sequence comes from the accumulator
or is a non-empty input result. -/
theorem mem_foldl_recordResult (t : List String) :
    ∀ (acc : List String) (p : String), p ∈ t.foldl recordResult acc →
      p ∈ acc ∨ (p ∈ t ∧ p ≠ "") := by
  induction t with
  | nil => intro acc p hp; left; simpa using hp
  | cons r t ih =>
    intro acc p hp
    rw [List.foldl_cons] at hp
    rcases ih (recordResult acc r) p hp with hmem | hmem
    · by_cases hr : r = ""
      · left; simpa [recordResult, hr] using hmem
      · unfold recordResult appendPhrase at hmem
        rw [if_neg hr] at hmem
        split at hmem
        · rcases List.mem_append.mp hmem with hl | hl
          · left; exact hl
          · right
            rw [List.mem_singleton.mp hl]
            exact ⟨List.mem_cons_self r t, hr⟩
        · left; exact hmem
    · right; exact ⟨List.mem_cons_of_mem r hmem.1, hmem.2⟩

/-! ## Claim theorems -/

/-- C1: for every sequence of tick results delivered by successful gateway
calls during one session, the phrase sequence equals the results with empty
strings dropped and consecutive case-insensitive duplicates collapsed to
the first occurrence; hence it never holds two case-insensitively-equal
adjacent entries; and a run of successful ticks updates the session phrase
field by exactly this fold. -/
theorem phrase_sequence_spec :
    (∀ R : List String,
        phrasesAfter R = (R.filter (fun r => r ≠ "")).destutter lowerNe) ∧
    (∀ R : List String, (phrasesAfter R).Chain' lowerNe) ∧
    (∀ (s : AppState) (raws : List (Option String)),
        (raws.foldl (fun st raw => performTick (TickOutcome.success raw) st)
            s).translatedPhrases
          = (raws.map translateImageToText).foldl recordResult s.translatedPhrases) := by
  refine ⟨phrasesAfter_eq_destutter, ?_, fun s raws => foldl_performTick_success raws s⟩
  intro R
  rw [phrasesAfter_eq_destutter]
  exact List.destutter_is_chain' lowerNe _

/-- C2: evidence of the code bug. On a failed tick from an active capturing
state the generic translation error is recorded, the ticker is cancelled,
the camera stream is released exactly once and the activity flag drops —
but the status ends `CAPTURING`, not `IDLE`: the finally clause
`setStatus('CAPTURING')` runs after the catch block has already invoked
`stop()`. -/
theorem tick_failure_status_bug :
    (performTick TickOutcome.failure activeState).error = some translationFailureMessage ∧
    (performTick TickOutcome.failure activeState).captureInterval = none ∧
    (performTick TickOutcome.failure activeState).cameraStream = none ∧
    (performTick TickOutcome.failure activeState).releaseCount = 1 ∧
    (performTick TickOutcome.failure activeState).isTranslating = false ∧
    (performTick TickOutcome.failure activeState).status = Status.CAPTURING ∧
    (performTick TickOutcome.failure activeState).status ≠ Status.IDLE := by
  refine ⟨rfl, rfl, rfl, rfl, rfl, rfl, ?_⟩
  decide

/-- C3 counterexample: at a state holding a prior summary, a failed
summarize call does not preserve that summary. -/
theorem summarize_failure_not_preserving :
    (handleSummarize SummarizeOutcome.failure sampleState).1.summary
      ≠ sampleState.summary := by
  decide

/-- C3 amended: with at least two phrases stored, a failed summarize call
surfaces the generic summarization error and clears the prior summary (it
is set to null before the gateway call); the capture session — status,
phrases, camera stream, ticker, activity flag, release and request counts —
is unaffected, and the gateway was called. -/
theorem summarize_failure_behavior (s : AppState)
    (h : 2 ≤ s.translatedPhrases.length) :
    (handleSummarize SummarizeOutcome.failure s).1.error
        = some summarizationFailureMessage ∧
    (handleSummarize SummarizeOutcome.failure s).1.summary = none ∧
    (handleSummarize SummarizeOutcome.failure s).1.isSummarizing = false ∧
    (handleSummarize SummarizeOutcome.failure s).1.status = s.status ∧
    (handleSummarize SummarizeOutcome.failure s).1.translatedPhrases
        = s.translatedPhrases ∧
    (handleSummarize SummarizeOutcome.failure s).1.cameraStream = s.cameraStream ∧
    (handleSummarize SummarizeOutcome.failure s).1.captureInterval = s.captureInterval ∧
    (handleSummarize SummarizeOutcome.failure s).1.isTranslating = s.isTranslating ∧
    (handleSummarize SummarizeOutcome.failure s).1.releaseCount = s.releaseCount ∧
    (handleSummarize SummarizeOutcome.failure s).1.cameraRequests = s.cameraRequests ∧
    (handleSummarize SummarizeOutcome.failure s).2 = true := by
  have hlt : ¬ s.translatedPhrases.length < 2 := by omega
  simp [handleSummarize, hlt]

/-- Witness for the amended C3 at a concrete state. -/
theorem summarize_failure_behavior_witness :
    2 ≤ sampleState.translatedPhrases.length ∧
    (handleSummarize SummarizeOutcome.failure sampleState).1.summary = none :=
  ⟨by decide, (summarize_failure_behavior sampleState (by decide)).2.1⟩

/-- C4 counterexample: starting from `ERROR` with no API key configured
neither clears the phrase sequence or summary nor reaches `STARTING` — the
configuration-error branch returns before the clearing statements run. -/
theorem start_no_key_no_clear :
    (startTranslationSession false CameraOutcome.granted errorState).translatedPhrases
        ≠ [] ∧
    (startTranslationSession false CameraOutcome.granted errorState).summary ≠ none ∧
    (startTranslationSession false CameraOutcome.granted errorState).status
        ≠ Status.STARTING := by
  decide

/-- C4 amended: with an API key configured, `start()` from `IDLE` or
`ERROR` clears the error, the phrase sequence and the summary and
transitions to `STARTING`, and the clearing precedes camera acquisition
(phrases and summary are cleared for every camera outcome); with no key
configured, `start()` sets the configuration error and `ERROR` without
clearing anything. -/
theorem start_clears_when_key_present (s : AppState) (cam : CameraOutcome)
    (h : s.status = Status.IDLE ∨ s.status = Status.ERROR) :
    ((startTranslationSession true cam s).translatedPhrases = [] ∧
     (startTranslationSession true cam s).summary = none ∧
     (cam = CameraOutcome.granted →
        (startTranslationSession true cam s).status = Status.STARTING ∧
        (startTranslationSession true cam s).error = none)) ∧
    ((startTranslationSession false cam s).translatedPhrases = s.translatedPhrases ∧
     (startTranslationSession false cam s).summary = s.summary ∧
     (startTranslationSession false cam s).status = Status.ERROR ∧
     (startTranslationSession false cam s).error = some configErrorMessage) := by
  cases cam <;> simp [startTranslationSession]

/-- Witness for the amended C4 at a concrete `ERROR` state. -/
theorem start_clears_when_key_present_witness :
    (errorState.status = Status.IDLE ∨ errorState.status = Status.ERROR) ∧
    (startTranslationSession true CameraOutcome.granted errorState).translatedPhrases
        = [] :=
  ⟨Or.inr rfl,
   (start_clears_when_key_present errorState CameraOutcome.granted (Or.inr rfl)).1.1⟩

/-- C5: with no inference credential configured, `start()` never invokes
camera acquisition (request count, stream and ticker unchanged) and
immediately reaches `ERROR` with the configuration error message. -/
theorem start_no_key_never_requests_camera (s : AppState) (cam : CameraOutcome) :
    (startTranslationSession false cam s).cameraRequests = s.cameraRequests ∧
    (startTranslationSession false cam s).cameraStream = s.cameraStream ∧
    (startTranslationSession false cam s).captureInterval = s.captureInterval ∧
    (startTranslationSession false cam s).status = Status.ERROR ∧
    (startTranslationSession false cam s).error = some configErrorMessage := by
  simp [startTranslationSession]

/-- C6: `stop()` is idempotent: from a state that is already idle (status
`IDLE`, inactive, no ticker registered, no camera stream held) it is the
identity — in particular it releases no resource a second time — and in
general a second consecutive `stop()` changes nothing further. -/
theorem stop_idempotent :
    (∀ s : AppState,
        s.status = Status.IDLE → s.isTranslating = false →
        s.captureInterval = none → s.cameraStream = none →
        stopTranslationSession s = s) ∧
    (∀ s : AppState,
        stopTranslationSession (stopTranslationSession s) = stopTranslationSession s) := by
  constructor
  · intro s h1 h2 h3 h4
    cases s
    simp_all [stopTranslationSession]
  · intro s
    cases s with
    | mk a b c d e f g h i j => cases g <;> cases h <;> simp [stopTranslationSession]

/-- Witness for C6 at the initial state. -/
theorem stop_idempotent_witness :
    initialState.status = Status.IDLE ∧
    stopTranslationSession initialState = initialState :=
  ⟨rfl, stop_idempotent.1 initialState rfl rfl rfl rfl⟩

/-- C7: with fewer than two stored phrases, `summarize()` is a no-op: the
state is returned unchanged and the gateway is not called. -/
theorem summarize_noop_below_two (s : AppState) (outcome : SummarizeOutcome)
    (h : s.translatedPhrases.length < 2) :
    handleSummarize outcome s = (s, false) := by
  simp [handleSummarize, h]

/-- Witness for C7 at the initial state. -/
theorem summarize_noop_below_two_witness :
    initialState.translatedPhrases.length < 2 ∧
    handleSummarize SummarizeOutcome.failure initialState = (initialState, false) :=
  ⟨by decide, summarize_noop_below_two initialState SummarizeOutcome.failure (by decide)⟩

/-- C8: `stop()` modifies neither the phrase sequence nor the summary and
lands in `IDLE`; after a successful summarize followed by `stop()` the
summary persists while the status is `IDLE`; and a start with a configured
key clears the summary. -/
theorem stop_preserves_summary :
    (∀ s : AppState,
        (stopTranslationSession s).translatedPhrases = s.translatedPhrases ∧
        (stopTranslationSession s).summary = s.summary ∧
        (stopTranslationSession s).status = Status.IDLE) ∧
    (∀ (s : AppState) (raw : Option String), 2 ≤ s.translatedPhrases.length →
        (stopTranslationSession
            (handleSummarize (SummarizeOutcome.success raw) s).1).summary
          = some (summarizeText raw) ∧
        (stopTranslationSession
            (handleSummarize (SummarizeOutcome.success raw) s).1).status
          = Status.IDLE) ∧
    (∀ (s : AppState) (cam : CameraOutcome),
        (startTranslationSession true cam s).summary = none) := by
  refine ⟨?_, ?_, ?_⟩
  · exact fun s => ⟨(stop_fields s).1, (stop_fields s).2.1, (stop_fields s).2.2.1⟩
  · intro s raw h2
    have hlt : ¬ s.translatedPhrases.length < 2 := by omega
    have hsum : (handleSummarize (SummarizeOutcome.success raw) s).1.summary
        = some (summarizeText raw) := by simp [handleSummarize, hlt]
    exact ⟨((stop_fields _).2.1).trans hsum, (stop_fields _).2.2.1⟩
  · intro s cam
    cases cam <;> simp [startTranslationSession]

/-- Witness for C8 at a concrete two-phrase state. -/
theorem stop_preserves_summary_witness :
    2 ≤ sampleState.translatedPhrases.length ∧
    (stopTranslationSession
        (handleSummarize (SummarizeOutcome.success (some "Halo semua"))
          sampleState).1).summary
      = some (summarizeText (some "Halo semua")) :=
  ⟨by decide,
   (stop_preserves_summary.2.1 sampleState (some "Halo semua") (by decide)).1⟩

/-- C9: every successful start arms the capture ticker with a period of
exactly 6000 ms and binds the stream, uniformly for every session state. -/
theorem start_arms_6000ms_ticker (s : AppState) :
    (startTranslationSession true CameraOutcome.granted s).captureInterval
        = some 6000 ∧
    (startTranslationSession true CameraOutcome.granted s).cameraStream = some () := by
  simp [startTranslationSession]

/-- C10: every phrase ever stored is non-empty and free of leading or
trailing whitespace — the wrapper trims `response.text ?? ''` before the
append test — and a gateway response consisting only of whitespace is never
appended. -/
theorem phrases_nonempty_trimmed :
    (∀ (raws : List (Option String)) (p : String),
        p ∈ phrasesAfter (raws.map translateImageToText) →
        p ≠ "" ∧ jsTrim p = p) ∧
    (∀ (prev : List String) (raw : Option String),
        (∀ c ∈ (raw.getD "").data, c.isWhitespace = true) →
        recordResult prev (translateImageToText raw) = prev) := by
  constructor
  · intro raws p hp
    rcases mem_foldl_recordResult _ [] p hp with h | h
    · simp at h
    · refine ⟨h.2, ?_⟩
      rcases List.mem_map.mp h.1 with ⟨raw, _, hraw⟩
      rw [← hraw]
      exact jsTrim_idem _
  · intro prev raw hws
    have hempty : translateImageToText raw = "" := jsTrim_whitespace _ hws
    rw [hempty]
    simp [recordResult]

/-- Witness for C10 at concrete gateway responses. -/
theorem phrases_nonempty_trimmed_witness :
    ("Halo" ∈ phrasesAfter ([some " Halo "].map translateImageToText) ∧
      ("Halo" ≠ "" ∧ jsTrim "Halo" = "Halo")) ∧
    ((∀ c ∈ ((some "  " : Option String).getD "").data, c.isWhitespace = true) ∧
      recordResult ["Halo"] (translateImageToText (some "  ")) = ["Halo"]) :=
  ⟨⟨by decide, phrases_nonempty_trimmed.1 [some " Halo "] "Halo" (by decide)⟩,
   ⟨by decide, phrases_nonempty_trimmed.2 ["Halo"] (some "  ") (by decide)⟩⟩

end TolopaniSign
